import Mathlib

/-!
# Verification of the pollution-analysis pipeline

Shallow embedding of `src/services/analysis_service.py` and
`src/services/weather_service.py` in Lean 4.  Machine floats are modelled
as exact rationals (`ℚ`); Python float literals such as `35.4` become the
corresponding decimal rationals.  Code that raises an exception is
modelled with `Option` (`none` = the call raises).  Calls into external
libraries (scipy's p-value, Prophet's predictions, sklearn's k-means
labelling, `random`, `np.sin`/`np.cos`/`np.pi`) are modelled as explicit
function parameters, since their outputs are data the repository's code
merely consumes.
-/

namespace AnalysisService

/-! ## Metric calculators (analysis_service.py lines 698-754) -/

/-- Embeds `calculate_pm25_aqi` (lines 712-725): piecewise-linear AQI from a PM2.5
concentration, EPA breakpoint table. -/
def calculate_pm25_aqi (pm25 : ℚ) : ℚ :=
  if pm25 ≤ 12 then (50 - 0) / (12 - 0) * (pm25 - 0) + 0
  else if pm25 ≤ 35.4 then (100 - 51) / (35.4 - 12.1) * (pm25 - 12.1) + 51
  else if pm25 ≤ 55.4 then (150 - 101) / (55.4 - 35.5) * (pm25 - 35.5) + 101
  else if pm25 ≤ 150.4 then (200 - 151) / (150.4 - 55.5) * (pm25 - 55.5) + 151
  else if pm25 ≤ 250.4 then (300 - 201) / (250.4 - 150.5) * (pm25 - 150.5) + 201
  else (500 - 301) / (500 - 250.5) * (pm25 - 250.5) + 301

/-- Embeds `calculate_no2_aqi` (lines 727-740): piecewise-linear AQI from an NO2
concentration. -/
def calculate_no2_aqi (no2 : ℚ) : ℚ :=
  if no2 ≤ 53 then (50 - 0) / (53 - 0) * (no2 - 0) + 0
  else if no2 ≤ 100 then (100 - 51) / (100 - 54) * (no2 - 54) + 51
  else if no2 ≤ 360 then (150 - 101) / (360 - 101) * (no2 - 101) + 101
  else if no2 ≤ 649 then (200 - 151) / (649 - 361) * (no2 - 361) + 151
  else if no2 ≤ 1249 then (300 - 201) / (1249 - 650) * (no2 - 650) + 201
  else (500 - 301) / (2049 - 1250) * (no2 - 1250) + 301

/-- Per-row pollution index (lines 53-56): `0.5*no2/40 + 0.5*pm25/25`. -/
def pollution_index_of (no2 pm25 : ℚ) : ℚ := 0.5 * no2 / 40 + 0.5 * pm25 / 25

/-- Embeds `calculate_health_risk_index` applied to one row (lines 742-754). -/
def health_risk_of (no2 pm25 : ℚ) : ℚ := (0.4 * (no2 / 40) + 0.6 * (pm25 / 25)) * 10

/-- Embeds `calculate_aqi` applied to one row (lines 698-710): max of the two
sub-indices. -/
def aqi_of (no2 pm25 : ℚ) : ℚ := max (calculate_pm25_aqi pm25) (calculate_no2_aqi no2)

/-- C4 counterexample: `calculate_pm25_aqi` is not continuous at the
breakpoint 12.  At the boundary the first branch gives exactly 50, while
an input only 1/100 above the boundary already yields a value more than
7/10 larger, because the second branch's segment starts at concentration
12.1 and value 51 (the adjacent branch formulas disagree at the boundary
by about 0.79 AQI, far beyond floating tolerance). -/
theorem calculate_pm25_aqi_jump_at_12 :
    calculate_pm25_aqi 12 = 50 ∧
    calculate_pm25_aqi (12 + 1 / 100) - calculate_pm25_aqi 12 > 7 / 10 := by
  constructor <;> norm_num [calculate_pm25_aqi]

set_option maxHeartbeats 1000000 in
/-- C4 amended: for all non-negative PM2.5 concentrations `calculate_pm25_aqi`
is non-decreasing (each branch is an increasing linear map and every
breakpoint jump is upward), even though it is not continuous at the
breakpoint boundaries. -/
theorem calculate_pm25_aqi_monotone (x y : ℚ) (hx : 0 ≤ x) (hxy : x ≤ y) :
    calculate_pm25_aqi x ≤ calculate_pm25_aqi y := by
  unfold calculate_pm25_aqi
  split_ifs <;> linarith

/-- Witness for `calculate_pm25_aqi_monotone` at concrete inputs 3 and 20. -/
theorem calculate_pm25_aqi_monotone_witness :
    (0 : ℚ) ≤ 3 ∧ (3 : ℚ) ≤ 20 ∧ calculate_pm25_aqi 3 ≤ calculate_pm25_aqi 20 :=
  ⟨by norm_num, by norm_num, calculate_pm25_aqi_monotone 3 20 (by norm_num) (by norm_num)⟩

/-! ## Data model for the aggregator (`analyze_pollution_levels`, lines 39-169)

Timestamps are modelled as hour counts (`ℕ`); truncating a timestamp to a
calendar date (`timestamp.dt.date`) is division by 24.  The sentinel frame
carries `no2_value`, the modis frame `pm25_value`; both carry
latitude/longitude/location, so after `pd.merge(..., suffixes=('_sentinel',
'_modis'))` those shared columns appear twice with suffixes. -/

structure SentinelSample where
  timestamp : ℕ
  no2_value : ℚ
  latitude : ℚ
  longitude : ℚ
  location : String
deriving DecidableEq

structure ModisSample where
  timestamp : ℕ
  pm25_value : ℚ
  latitude : ℚ
  longitude : ℚ
  location : String
deriving DecidableEq

structure JoinedRow where
  timestamp : ℕ
  no2_value : ℚ
  latitude_sentinel : ℚ
  longitude_sentinel : ℚ
  location_sentinel : String
  pm25_value : ℚ
  latitude_modis : ℚ
  longitude_modis : ℚ
  location_modis : String
deriving DecidableEq

/-- Embeds the inner join `pd.merge(sentinel_data, modis_data, on='timestamp', ...)`
(lines 44-49):
inner join on exact timestamp equality; each matching pair of rows
contributes one joined row. -/
def merge_on_timestamp (s : List SentinelSample) (m : List ModisSample) :
    List JoinedRow :=
  s.flatMap fun a =>
    (m.filter fun b => b.timestamp == a.timestamp).map fun b =>
      { timestamp := a.timestamp
        no2_value := a.no2_value
        latitude_sentinel := a.latitude
        longitude_sentinel := a.longitude
        location_sentinel := a.location
        pm25_value := b.pm25_value
        latitude_modis := b.latitude
        longitude_modis := b.longitude
        location_modis := b.location }

/-- Embeds `timestamp.dt.date`: truncate an hour-count timestamp to its day. -/
def date_of_timestamp (t : ℕ) : ℕ := t / 24

/-- Arithmetic mean of a list of rationals (pandas `.mean()`). -/
def mean (xs : List ℚ) : ℚ := xs.sum / (xs.length : ℚ)

/-- Maximum of a list of rationals (pandas `.max()`, meaningful on
non-empty input). -/
def list_max (xs : List ℚ) : ℚ := xs.foldl max (xs.headD 0)

/-- Insert a date into an ascending, duplicate-free date list. -/
def insert_asc (d : ℕ) : List ℕ → List ℕ
  | [] => [d]
  | e :: es => if d < e then d :: e :: es else if d = e then e :: es else e :: insert_asc d es

/-- Ascending duplicate-free list of the elements of `l`. -/
def sorted_dedup (l : List ℕ) : List ℕ := l.foldr insert_asc []

/-- The distinct calendar dates of the joined rows, ascending — pandas
`groupby(combined_data['timestamp'].dt.date)` sorts the group keys. -/
def daily_dates (rows : List JoinedRow) : List ℕ :=
  sorted_dedup (rows.map fun r => date_of_timestamp r.timestamp)

/-- The joined rows falling on one calendar date. -/
def rows_on_date (rows : List JoinedRow) (d : ℕ) : List JoinedRow :=
  rows.filter fun r => date_of_timestamp r.timestamp == d

/-- One row of `daily_data` (lines 72-76): the mean of every numeric column
over one date's joined rows.  The derived per-row columns
(`pollution_index`, `aqi`, `health_risk`, lines 53-62) were added before
grouping, so their daily values are means of the per-row values.  The
boolean `exceeds_who_*` columns are not `np.number` dtypes, so
`select_dtypes(include=[np.number])` drops them before grouping. -/
structure DailyRow where
  date : ℕ
  no2_value : ℚ
  pm25_value : ℚ
  pollution_index : ℚ
  aqi : ℚ
  health_risk : ℚ
  latitude_sentinel : ℚ
  longitude_sentinel : ℚ
deriving DecidableEq

def daily_row (rows : List JoinedRow) (d : ℕ) : DailyRow :=
  let g := rows_on_date rows d
  { date := d
    no2_value := mean (g.map (·.no2_value))
    pm25_value := mean (g.map (·.pm25_value))
    pollution_index := mean (g.map fun r => pollution_index_of r.no2_value r.pm25_value)
    aqi := mean (g.map fun r => aqi_of r.no2_value r.pm25_value)
    health_risk := mean (g.map fun r => health_risk_of r.no2_value r.pm25_value)
    latitude_sentinel := mean (g.map (·.latitude_sentinel))
    longitude_sentinel := mean (g.map (·.longitude_sentinel)) }

/-- Embeds `daily_data` (line 76): one aggregated row per distinct date, ascending. -/
def daily_data (rows : List JoinedRow) : List DailyRow :=
  (daily_dates rows).map (daily_row rows)

/-! ## Anomaly detector (`detect_anomalies`, lines 756-782) -/

/-- Population variance (ddof = 0), the default of `scipy.stats.zscore`. -/
def pop_variance (xs : List ℚ) : ℚ := mean (xs.map fun x => (x - mean xs) ^ 2)

/-- Decides `abs(zscore(xs)) > 3` at value `x`, where `zscore` divides by the
population standard deviation: equivalent to `(x - mean)^2 > 9 * variance`
when the variance is positive.  When the variance is zero scipy produces
NaN z-scores and `NaN > 3` is false, so nothing is flagged. -/
def zscore_exceeds_three (xs : List ℚ) (x : ℚ) : Bool :=
  decide (0 < pop_variance xs ∧ 9 * pop_variance xs < (x - mean xs) ^ 2)

/-- Embeds `detect_anomalies` (lines 756-782): for each pollutant column, when the
series has more than 5 values, flag the dates whose z-score magnitude
exceeds 3; the result is the union of the two per-pollutant date sets.
Python accumulates a `set`; only membership is consumed downstream, so the
flagged dates are returned as a list. -/
def detect_anomalies (data : List DailyRow) : List ℕ :=
  (data.filter fun r =>
      (decide (5 < data.length) && zscore_exceeds_three (data.map (·.no2_value)) r.no2_value) ||
      (decide (5 < data.length) && zscore_exceeds_three (data.map (·.pm25_value)) r.pm25_value)).map
    (·.date)

/-! ## Trend analyzer (`analyze_trends`, lines 784-822)

`stats.linregress(x, y)` with `x = arange(len(data))`: the slope and r² are
closed-form rational functions of the data; the two-sided p-value comes
from the t-distribution inside scipy and is modelled as an explicit
function parameter `pv`. -/

/-- Least-squares slope of `ys` against the index sequence `0,1,2,…`. -/
def linreg_slope (ys : List ℚ) : ℚ :=
  let n : ℚ := ys.length
  let xs : List ℚ := (List.range ys.length).map fun i => (i : ℚ)
  (n * ((xs.zip ys).map fun p => p.1 * p.2).sum - xs.sum * ys.sum) /
    (n * (xs.map fun x => x ^ 2).sum - xs.sum ^ 2)

/-- Least-squares intercept: `mean ys - slope * mean xs`. -/
def linreg_intercept (ys : List ℚ) : ℚ :=
  linreg_slope ys * (-(mean ((List.range ys.length).map fun i => (i : ℚ)))) + mean ys

/-- Squared Pearson correlation of `ys` with the index sequence; scipy
returns `r = 0` when either centered sum of squares vanishes. -/
def linreg_r_squared (ys : List ℚ) : ℚ :=
  let n : ℚ := ys.length
  let xs : List ℚ := (List.range ys.length).map fun i => (i : ℚ)
  let sxy := n * ((xs.zip ys).map fun p => p.1 * p.2).sum - xs.sum * ys.sum
  let sxx := n * (xs.map fun x => x ^ 2).sum - xs.sum ^ 2
  let syy := n * (ys.map fun y => y ^ 2).sum - ys.sum ^ 2
  if sxx = 0 ∨ syy = 0 then 0 else sxy ^ 2 / (sxx * syy)

structure TrendResult where
  slope : ℚ
  r_squared : ℚ
  p_value : ℚ
  is_significant : Bool
  direction : String
deriving DecidableEq

/-- One pollutant's trend block (either half of lines 788-820): present only
when the series has at least 3 values. -/
def trend_of (pv : List ℚ → ℚ) (ys : List ℚ) : Option TrendResult :=
  if 3 ≤ ys.length then
    some
      { slope := linreg_slope ys
        r_squared := linreg_r_squared ys
        p_value := pv ys
        is_significant := decide (pv ys < 0.05)
        direction :=
          if 0 < linreg_slope ys then "increasing"
          else if linreg_slope ys < 0 then "decreasing" else "stable" }
  else none

structure TrendMap where
  no2_trend : Option TrendResult
  pm25_trend : Option TrendResult
deriving DecidableEq

/-- Embeds `analyze_trends` (lines 784-822). -/
def analyze_trends (pv : List ℚ → ℚ) (data : List DailyRow) : TrendMap :=
  { no2_trend := trend_of pv (data.map (·.no2_value))
    pm25_trend := trend_of pv (data.map (·.pm25_value)) }

/-! ## `analyze_pollution_levels` (lines 39-169) -/

/-- The Summary annex built at lines 107-115.  The `exceeds_who_*` boolean
columns were dropped before grouping (bool is not an `np.number` dtype),
so `'exceeds_who_no2' in daily_data` is false and both day counts take the
`else 0` branch. -/
structure Summary where
  avg_no2 : ℚ
  avg_pm25 : ℚ
  max_no2 : ℚ
  max_pm25 : ℚ
  days_exceeding_who_no2 : ℕ
  days_exceeding_who_pm25 : ℕ
  trend : TrendMap
deriving DecidableEq

structure DailyRecord where
  date : ℕ
  no2_level : ℚ
  pm25_level : ℚ
  pollution_index : ℚ
  aqi : ℚ
  health_risk : ℚ
  is_anomaly : Bool
  latitude : ℚ
  longitude : ℚ
  location : String
  summary : Option Summary
deriving DecidableEq

/-- The per-date output dict built at lines 88-102 (without a summary). -/
def record_of_daily_row (anomaly_dates : List ℕ) (location : String)
    (row : DailyRow) : DailyRecord :=
  { date := row.date
    no2_level := row.no2_value
    pm25_level := row.pm25_value
    pollution_index := row.pollution_index
    aqi := row.aqi
    health_risk := row.health_risk
    is_anomaly := decide (row.date ∈ anomaly_dates)
    latitude := row.latitude_sentinel
    longitude := row.longitude_sentinel
    location := location
    summary := none }

def mk_summary (pv : List ℚ → ℚ) (daily : List DailyRow) : Summary :=
  { avg_no2 := mean (daily.map (·.no2_value))
    avg_pm25 := mean (daily.map (·.pm25_value))
    max_no2 := list_max (daily.map (·.no2_value))
    max_pm25 := list_max (daily.map (·.pm25_value))
    days_exceeding_who_no2 := 0
    days_exceeding_who_pm25 := 0
    trend := analyze_trends pv daily }

/-- Embeds `if len(result) > 0: result[0]['summary'] = ...` (lines 105-115). -/
def with_summary (sm : Summary) : List DailyRecord → List DailyRecord
  | [] => []
  | r :: rs => { r with summary := some sm } :: rs

/-- Embeds `analyze_pollution_levels` (lines 39-169).  When the inner join is empty,
line 70 evaluates `combined_data['location_sentinel'].iloc[0]` on a
zero-row frame, which raises `IndexError`: modelled as `none`.  The
AI/weather enrichments (lines 117-167) only add extra annex keys to
`result[0]` inside try/except blocks and are not modelled; they never
touch the fields below nor any record at index ≥ 1. -/
def analyze_pollution_levels (pv : List ℚ → ℚ) (sentinel_data : List SentinelSample)
    (modis_data : List ModisSample) : Option (List DailyRecord) :=
  match merge_on_timestamp sentinel_data modis_data with
  | [] => none
  | c0 :: rest =>
    let combined := c0 :: rest
    let location := c0.location_sentinel
    let daily := daily_data combined
    let anomaly_dates := detect_anomalies daily
    some (with_summary (mk_summary pv daily)
      (daily.map (record_of_daily_row anomaly_dates location)))

/-! ## Helper lemmas -/

theorem insert_asc_mem (a d : ℕ) (l : List ℕ) :
    a ∈ insert_asc d l ↔ a = d ∨ a ∈ l := by
  induction l with
  | nil => simp [insert_asc]
  | cons e es ih =>
    unfold insert_asc
    split_ifs with h1 h2
    · simp
    · subst h2; simp [List.mem_cons]
    · simp only [List.mem_cons, ih]; tauto

theorem insert_asc_sorted (d : ℕ) (l : List ℕ) (h : l.Sorted (· < ·)) :
    (insert_asc d l).Sorted (· < ·) := by
  induction l with
  | nil => simp [insert_asc]
  | cons e es ih =>
    rw [List.sorted_cons] at h
    unfold insert_asc
    split_ifs with h1 h2
    · rw [List.sorted_cons]
      constructor
      · intro b hb
        rcases List.mem_cons.mp hb with hb | hb
        · omega
        · have := h.1 b hb; omega
      · rw [List.sorted_cons]; exact h
    · rw [List.sorted_cons]; exact h
    · rw [List.sorted_cons]
      refine ⟨?_, ih h.2⟩
      intro b hb
      rcases (insert_asc_mem b d es).mp hb with hb | hb
      · omega
      · exact h.1 b hb

theorem sorted_dedup_sorted (l : List ℕ) : (sorted_dedup l).Sorted (· < ·) := by
  induction l with
  | nil => simp [sorted_dedup]
  | cons e es ih => exact insert_asc_sorted e _ ih

theorem sorted_dedup_mem (a : ℕ) (l : List ℕ) : a ∈ sorted_dedup l ↔ a ∈ l := by
  induction l with
  | nil => simp [sorted_dedup]
  | cons e es ih =>
    show a ∈ insert_asc e (sorted_dedup es) ↔ _
    rw [insert_asc_mem, ih, List.mem_cons]

theorem list_sum_map_linear {α : Type} (l : List α) (f g : α → ℚ) (a b : ℚ) :
    (l.map fun x => a * f x + b * g x).sum = a * (l.map f).sum + b * (l.map g).sum := by
  induction l with
  | nil => simp
  | cons x xs ih => simp only [List.map_cons, List.sum_cons, ih]; ring

theorem mean_map_linear {α : Type} (l : List α) (f g : α → ℚ) (a b : ℚ) :
    mean (l.map fun x => a * f x + b * g x) = a * mean (l.map f) + b * mean (l.map g) := by
  unfold mean
  rw [list_sum_map_linear]
  simp only [List.length_map]
  ring

theorem daily_row_pollution_formula (rows : List JoinedRow) (d : ℕ) :
    (daily_row rows d).pollution_index =
      0.5 * (daily_row rows d).no2_value / 40 + 0.5 * (daily_row rows d).pm25_value / 25 := by
  have hfun : (fun r : JoinedRow => pollution_index_of r.no2_value r.pm25_value) =
      fun r : JoinedRow => (1 / 80 : ℚ) * r.no2_value + (1 / 50 : ℚ) * r.pm25_value := by
    funext r; unfold pollution_index_of; ring
  show mean ((rows_on_date rows d).map fun r => pollution_index_of r.no2_value r.pm25_value) =
      0.5 * mean ((rows_on_date rows d).map (·.no2_value)) / 40 +
        0.5 * mean ((rows_on_date rows d).map (·.pm25_value)) / 25
  rw [hfun, mean_map_linear]
  ring

theorem daily_row_health_formula (rows : List JoinedRow) (d : ℕ) :
    (daily_row rows d).health_risk =
      (0.4 * ((daily_row rows d).no2_value / 40) + 0.6 * ((daily_row rows d).pm25_value / 25)) * 10 := by
  have hfun : (fun r : JoinedRow => health_risk_of r.no2_value r.pm25_value) =
      fun r : JoinedRow => (1 / 10 : ℚ) * r.no2_value + (6 / 25 : ℚ) * r.pm25_value := by
    funext r; unfold health_risk_of; ring
  show mean ((rows_on_date rows d).map fun r => health_risk_of r.no2_value r.pm25_value) =
      (0.4 * (mean ((rows_on_date rows d).map (·.no2_value)) / 40) +
        0.6 * (mean ((rows_on_date rows d).map (·.pm25_value)) / 25)) * 10
  rw [hfun, mean_map_linear]
  ring

theorem with_summary_mem {sm : Summary} {l : List DailyRecord} {rec : DailyRecord}
    (h : rec ∈ with_summary sm l) :
    ∃ r ∈ l, rec = r ∨ rec = { r with summary := some sm } := by
  cases l with
  | nil => simp [with_summary] at h
  | cons r rs =>
    simp only [with_summary, List.mem_cons] at h
    rcases h with h | h
    · exact ⟨r, List.mem_cons_self r rs, Or.inr h⟩
    · exact ⟨rec, List.mem_cons_of_mem r h, Or.inl rfl⟩

/-! ## C3: behaviour on a zero-row join -/

/-- Concrete sentinel input used by the counterexamples/witnesses. -/
def sentinel0 : List SentinelSample :=
  [{ timestamp := 0, no2_value := 30, latitude := 21, longitude := 79, location := "Nagpur" }]

/-- Concrete modis input sharing `sentinel0`'s timestamp. -/
def modis0 : List ModisSample :=
  [{ timestamp := 0, pm25_value := 70, latitude := 21, longitude := 79, location := "Nagpur" }]

/-- Concrete modis input whose timestamp (hour 25 = day 1) matches nothing
in `sentinel0`, so the inner join is empty. -/
def modis_disjoint : List ModisSample :=
  [{ timestamp := 25, pm25_value := 70, latitude := 21, longitude := 79, location := "Nagpur" }]

/-- C3 counterexample: with inputs whose inner join has zero rows,
`analyze_pollution_levels` does not return the empty sequence — it raises
`IndexError` at line 70 (`combined_data['location_sentinel'].iloc[0]` on a
zero-row frame), modelled as `none`. -/
theorem analyze_zero_row_join_counterexample :
    analyze_pollution_levels (fun _ => 0) sentinel0 modis_disjoint = none ∧
    analyze_pollution_levels (fun _ => 0) sentinel0 modis_disjoint ≠ some [] := by
  constructor
  · rfl
  · decide

/-- C3 amended: whenever the inner join on timestamp produces zero rows,
`analyze_pollution_levels` raises (modelled: returns `none`) instead of
returning an empty sequence. -/
theorem analyze_zero_row_join_raises (pv : List ℚ → ℚ) (s : List SentinelSample)
    (m : List ModisSample) (h : merge_on_timestamp s m = []) :
    analyze_pollution_levels pv s m = none := by
  unfold analyze_pollution_levels
  rw [h]

/-- Witness for `analyze_zero_row_join_raises` at the concrete disjoint input. -/
theorem analyze_zero_row_join_raises_witness :
    merge_on_timestamp sentinel0 modis_disjoint = [] ∧
    analyze_pollution_levels (fun _ => 0) sentinel0 modis_disjoint = none :=
  ⟨by decide, analyze_zero_row_join_raises (fun _ => 0) sentinel0 modis_disjoint (by decide)⟩

/-! ## C2: the per-record index formulas survive daily averaging -/

/-- C2: every record emitted by `analyze_pollution_levels` satisfies
`pollution_index = 0.5*no2_level/40 + 0.5*pm25_level/25` and
`health_risk = (0.4*(no2_level/40) + 0.6*(pm25_level/25))*10` of its own
daily-mean fields (the per-row formulas are linear, so they commute with
the within-day arithmetic mean); in particular a record with
`no2_level = 40` and `pm25_level = 25` has `pollution_index = 1`. -/
theorem analyze_record_index_formulas (pv : List ℚ → ℚ) (s : List SentinelSample)
    (m : List ModisSample) (rec : DailyRecord)
    (h : rec ∈ (analyze_pollution_levels pv s m).getD []) :
    rec.pollution_index = 0.5 * rec.no2_level / 40 + 0.5 * rec.pm25_level / 25 ∧
    rec.health_risk = (0.4 * (rec.no2_level / 40) + 0.6 * (rec.pm25_level / 25)) * 10 ∧
    (rec.no2_level = 40 → rec.pm25_level = 25 → rec.pollution_index = 1) := by
  cases hm : merge_on_timestamp s m with
  | nil =>
    rw [analyze_pollution_levels, hm] at h
    simp at h
  | cons c0 rest =>
    rw [analyze_pollution_levels, hm] at h
    simp only [Option.getD_some] at h
    obtain ⟨r, hr, hcase⟩ := with_summary_mem h
    rw [List.mem_map] at hr
    obtain ⟨row, hrow, hrec⟩ := hr
    rw [daily_data, List.mem_map] at hrow
    obtain ⟨d, _, hd⟩ := hrow
    have hfields : rec.pollution_index = row.pollution_index ∧
        rec.no2_level = row.no2_value ∧ rec.pm25_level = row.pm25_value ∧
        rec.health_risk = row.health_risk := by
      rcases hcase with hcase | hcase <;> subst hcase <;> subst hrec <;>
        exact ⟨rfl, rfl, rfl, rfl⟩
    obtain ⟨h1, h2, h3, h4⟩ := hfields
    subst hd
    refine ⟨?_, ?_, ?_⟩
    · rw [h1, h2, h3]; exact daily_row_pollution_formula _ d
    · rw [h4, h2, h3]; exact daily_row_health_formula _ d
    · intro hno2 hpm25
      rw [h1, h2, h3] at *
      rw [daily_row_pollution_formula _ d, hno2, hpm25]
      norm_num

/-- Witness for `analyze_record_index_formulas` at the one-day concrete
input `sentinel0`/`modis0`. -/
theorem analyze_record_index_formulas_witness :
    ∃ rec ∈ (analyze_pollution_levels (fun _ => 0) sentinel0 modis0).getD [],
      rec.pollution_index = 0.5 * rec.no2_level / 40 + 0.5 * rec.pm25_level / 25 ∧
      rec.health_risk = (0.4 * (rec.no2_level / 40) + 0.6 * (rec.pm25_level / 25)) * 10 := by
  have hne : (analyze_pollution_levels (fun _ => 0) sentinel0 modis0).getD [] ≠ [] := by decide
  refine ⟨((analyze_pollution_levels (fun _ => 0) sentinel0 modis0).getD []).head hne,
    List.head_mem hne, ?_⟩
  have := analyze_record_index_formulas (fun _ => 0) sentinel0 modis0 _ (List.head_mem hne)
  exact ⟨this.1, this.2.1⟩

/-! ## C1: shape of the analyzer output -/

theorem with_summary_map_date (sm : Summary) (l : List DailyRecord) :
    (with_summary sm l).map (·.date) = l.map (·.date) := by
  cases l <;> rfl

theorem with_summary_map_no2 (sm : Summary) (l : List DailyRecord) :
    (with_summary sm l).map (·.no2_level) = l.map (·.no2_level) := by
  cases l <;> rfl

theorem with_summary_map_pm25 (sm : Summary) (l : List DailyRecord) :
    (with_summary sm l).map (·.pm25_level) = l.map (·.pm25_level) := by
  cases l <;> rfl

theorem daily_data_map_date (rows : List JoinedRow) :
    (daily_data rows).map (·.date) = daily_dates rows := by
  unfold daily_data
  rw [List.map_map]
  exact List.map_id _

theorem with_summary_length (sm : Summary) (l : List DailyRecord) :
    (with_summary sm l).length = l.length := by
  cases l <;> rfl

theorem with_summary_get_tail_summary (sm : Summary) (l : List DailyRecord) (i : ℕ)
    (hi : i < (with_summary sm l).length) (hpos : 0 < i) :
    ((with_summary sm l).get ⟨i, hi⟩).summary =
      (l.get ⟨i, by rwa [with_summary_length] at hi⟩).summary := by
  cases l with
  | nil => rw [with_summary_length] at hi; simp at hi
  | cons r rs =>
    cases i with
    | zero => omega
    | succ j => rfl

theorem with_summary_get_head_summary (sm : Summary) (l : List DailyRecord)
    (h0 : 0 < (with_summary sm l).length) :
    ((with_summary sm l).get ⟨0, h0⟩).summary = some sm := by
  cases l with
  | nil => rw [with_summary_length] at h0; simp at h0
  | cons r rs => rfl

theorem records_map_date (ad : List ℕ) (loc : String) (daily : List DailyRow) :
    (daily.map (record_of_daily_row ad loc)).map (·.date) = daily.map (·.date) := by
  rw [List.map_map]; rfl

theorem base_records_summary_none (ad : List ℕ) (loc : String) (daily : List DailyRow)
    (rec : DailyRecord) (h : rec ∈ daily.map (record_of_daily_row ad loc)) :
    rec.summary = none := by
  rw [List.mem_map] at h
  obtain ⟨row, _, hr⟩ := h
  subst hr
  rfl

/-- C1: whenever the inner join is non-empty, `analyze_pollution_levels`
returns one record per distinct calendar date of the joined rows, in
strictly ascending date order, and the Summary annex sits on the first
record only — every record at index ≥ 1 has no summary. -/
theorem analyze_one_record_per_date_summary_on_head (pv : List ℚ → ℚ)
    (s : List SentinelSample) (m : List ModisSample)
    (h : merge_on_timestamp s m ≠ []) :
    ∃ recs, analyze_pollution_levels pv s m = some recs ∧
      (recs.map (·.date)).Sorted (· < ·) ∧
      (∀ d, d ∈ recs.map (·.date) ↔
        d ∈ (merge_on_timestamp s m).map fun r => date_of_timestamp r.timestamp) ∧
      (∀ i, ∀ hi : i < recs.length, 0 < i → (recs.get ⟨i, hi⟩).summary = none) ∧
      (∀ h0 : 0 < recs.length, ((recs.get ⟨0, h0⟩).summary).isSome = true) := by
  cases hm : merge_on_timestamp s m with
  | nil => exact absurd hm h
  | cons c0 rest =>
    set daily := daily_data (c0 :: rest) with hdaily
    set base := daily.map (record_of_daily_row (detect_anomalies daily) c0.location_sentinel)
      with hbase
    set sm := mk_summary pv daily with hsm
    refine ⟨with_summary sm base, ?_, ?_, ?_, ?_, ?_⟩
    · rw [analyze_pollution_levels, hm]
    · rw [with_summary_map_date, hbase, records_map_date, hdaily, daily_data_map_date]
      exact sorted_dedup_sorted _
    · intro d
      rw [with_summary_map_date, hbase, records_map_date, hdaily, daily_data_map_date]
      exact sorted_dedup_mem d _
    · intro i hi hpos
      rw [with_summary_get_tail_summary sm base i hi hpos]
      exact base_records_summary_none (detect_anomalies daily) c0.location_sentinel daily _
        (List.get_mem base i _)
    · intro h0
      rw [with_summary_get_head_summary sm base h0]
      rfl

/-- Witness for `analyze_one_record_per_date_summary_on_head` at the
concrete one-day input. -/
theorem analyze_one_record_per_date_summary_on_head_witness :
    merge_on_timestamp sentinel0 modis0 ≠ [] ∧
    ∃ recs, analyze_pollution_levels (fun _ => 0) sentinel0 modis0 = some recs ∧
      (recs.map (·.date)).Sorted (· < ·) ∧
      (∀ d, d ∈ recs.map (·.date) ↔
        d ∈ (merge_on_timestamp sentinel0 modis0).map fun r => date_of_timestamp r.timestamp) ∧
      (∀ i, ∀ hi : i < recs.length, 0 < i → (recs.get ⟨i, hi⟩).summary = none) ∧
      (∀ h0 : 0 < recs.length, ((recs.get ⟨0, h0⟩).summary).isSome = true) :=
  ⟨by decide,
    analyze_one_record_per_date_summary_on_head (fun _ => 0) sentinel0 modis0 (by decide)⟩

/-! ## C5: is_anomaly semantics -/

theorem mem_map_filter_iff {α β : Type} [DecidableEq β] (l : List α) (f : α → β)
    (p : α → Bool) (hnd : (l.map f).Nodup) (a : α) (ha : a ∈ l) :
    f a ∈ (l.filter p).map f ↔ p a = true := by
  constructor
  · intro hmem
    rw [List.mem_map] at hmem
    obtain ⟨b, hb, hfb⟩ := hmem
    rw [List.mem_filter] at hb
    have hba : b = a := List.inj_on_of_nodup_map hnd hb.1 ha hfb
    rw [← hba]
    exact hb.2
  · intro hp
    exact List.mem_map.mpr ⟨a, List.mem_filter.mpr ⟨ha, hp⟩, rfl⟩

theorem daily_data_dates_nodup (rows : List JoinedRow) :
    ((daily_data rows).map (·.date)).Nodup := by
  rw [daily_data_map_date]
  exact (sorted_dedup_sorted _).nodup

/-- C5: in the analyzer output, when the daily series has 5 or fewer days no
record is flagged anomalous; when it has more than 5 days (i.e. at least
6), a record is flagged if and only if the z-score magnitude of its own
NO2 daily value or of its own PM2.5 daily value within the corresponding
daily series exceeds 3 (union of the two per-pollutant flags). -/
theorem analyze_is_anomaly_iff_zscore (pv : List ℚ → ℚ) (s : List SentinelSample)
    (m : List ModisSample) (recs : List DailyRecord)
    (h : analyze_pollution_levels pv s m = some recs) (rec : DailyRecord)
    (hrec : rec ∈ recs) :
    (recs.length ≤ 5 → rec.is_anomaly = false) ∧
    (5 < recs.length →
      (rec.is_anomaly = true ↔
        zscore_exceeds_three (recs.map (·.no2_level)) rec.no2_level = true ∨
        zscore_exceeds_three (recs.map (·.pm25_level)) rec.pm25_level = true)) := by
  cases hm : merge_on_timestamp s m with
  | nil => rw [analyze_pollution_levels, hm] at h; exact absurd h (by simp)
  | cons c0 rest =>
    rw [analyze_pollution_levels, hm] at h
    rw [Option.some.injEq] at h
    set daily := daily_data (c0 :: rest) with hdaily
    set ad := detect_anomalies daily with had
    set base := daily.map (record_of_daily_row ad c0.location_sentinel) with hbase
    -- lengths and column equalities
    have hlen : recs.length = daily.length := by
      rw [← h, with_summary_length, hbase, List.length_map]
    have hno2col : recs.map (·.no2_level) = daily.map (·.no2_value) := by
      rw [← h, with_summary_map_no2, hbase, List.map_map]; rfl
    have hpm25col : recs.map (·.pm25_level) = daily.map (·.pm25_value) := by
      rw [← h, with_summary_map_pm25, hbase, List.map_map]; rfl
    -- the record's fields come from some daily row
    rw [← h] at hrec
    obtain ⟨r, hr, hcase⟩ := with_summary_mem hrec
    rw [hbase, List.mem_map] at hr
    obtain ⟨row, hrow, hrrec⟩ := hr
    have hfields : rec.is_anomaly = decide (row.date ∈ ad) ∧
        rec.no2_level = row.no2_value ∧ rec.pm25_level = row.pm25_value := by
      rcases hcase with hcase | hcase <;> subst hcase <;> subst hrrec <;>
        exact ⟨rfl, rfl, rfl⟩
    obtain ⟨hanom, hno2, hpm25⟩ := hfields
    constructor
    · -- at most 5 days: detect_anomalies flags nothing
      intro hle
      rw [hlen] at hle
      have hadnil : ad = [] := by
        rw [had]
        unfold detect_anomalies
        have hdec : decide (5 < daily.length) = false := by
          simp only [decide_eq_false_iff_not]; omega
        rw [List.filter_congr (fun x _ => by rw [hdec, Bool.false_and, Bool.false_and,
          Bool.or_self])]
        rw [List.filter_false, List.map_nil]
      rw [hanom, hadnil]
      simp
    · -- more than 5 days: membership in the flagged-date list unfolds
      intro hgt
      rw [hlen] at hgt
      have hdec : decide (5 < daily.length) = true := by
        simp only [decide_eq_true_eq]; omega
      have hiff : row.date ∈ ad ↔
          (zscore_exceeds_three (daily.map (·.no2_value)) row.no2_value = true ∨
           zscore_exceeds_three (daily.map (·.pm25_value)) row.pm25_value = true) := by
        rw [had]
        unfold detect_anomalies
        have hmm := mem_map_filter_iff daily (·.date)
          (fun r =>
            (decide (5 < daily.length) && zscore_exceeds_three (daily.map (·.no2_value)) r.no2_value) ||
            (decide (5 < daily.length) && zscore_exceeds_three (daily.map (·.pm25_value)) r.pm25_value))
          (daily_data_dates_nodup _) row hrow
        rw [hmm, hdec]
        simp [Bool.true_and, Bool.or_eq_true]
      rw [hanom, hno2, hpm25, hno2col, hpm25col]
      simp only [decide_eq_true_eq]
      exact hiff

/-- Concrete 6-day inputs for the C5 witness: six matching timestamps, one
per day. -/
def sentinel6 : List SentinelSample :=
  (List.range 6).map fun d =>
    { timestamp := 24 * d, no2_value := 30, latitude := 21, longitude := 79,
      location := "Nagpur" }

def modis6 : List ModisSample :=
  (List.range 6).map fun d =>
    { timestamp := 24 * d, pm25_value := 70, latitude := 21, longitude := 79,
      location := "Nagpur" }

/-- Witness for `analyze_is_anomaly_iff_zscore` at a concrete 6-day input. -/
theorem analyze_is_anomaly_iff_zscore_witness :
    ∃ recs, analyze_pollution_levels (fun _ => 0) sentinel6 modis6 = some recs ∧
      ∃ rec ∈ recs,
        (recs.length ≤ 5 → rec.is_anomaly = false) ∧
        (5 < recs.length →
          (rec.is_anomaly = true ↔
            zscore_exceeds_three (recs.map (·.no2_level)) rec.no2_level = true ∨
            zscore_exceeds_three (recs.map (·.pm25_level)) rec.pm25_level = true)) := by
  have h : analyze_pollution_levels (fun _ => 0) sentinel6 modis6 =
      some ((analyze_pollution_levels (fun _ => 0) sentinel6 modis6).getD []) := by
    cases hm : analyze_pollution_levels (fun _ => 0) sentinel6 modis6 with
    | none => exact absurd hm (by decide)
    | some v => rfl
  refine ⟨_, h, ?_⟩
  have hne : (analyze_pollution_levels (fun _ => 0) sentinel6 modis6).getD [] ≠ [] := by decide
  exact ⟨_, List.head_mem hne,
    analyze_is_anomaly_iff_zscore (fun _ => 0) sentinel6 modis6 _ h _ (List.head_mem hne)⟩

/-! ## C6: trend blocks -/

/-- What one emitted trend block must satisfy: field provenance,
significance iff `p < 0.05`, and direction decided strictly by the sign of
the slope. -/
def trend_block_spec (pv : List ℚ → ℚ) (ys : List ℚ) (t : TrendResult) : Prop :=
  t.slope = linreg_slope ys ∧ t.r_squared = linreg_r_squared ys ∧ t.p_value = pv ys ∧
  (t.is_significant = true ↔ t.p_value < 0.05) ∧
  (0 < t.slope → t.direction = "increasing") ∧
  (t.slope < 0 → t.direction = "decreasing") ∧
  (t.slope = 0 → t.direction = "stable")

theorem trend_of_spec (pv : List ℚ → ℚ) (ys : List ℚ) (h : 3 ≤ ys.length) :
    ∃ t, trend_of pv ys = some t ∧ trend_block_spec pv ys t := by
  unfold trend_of
  rw [if_pos h]
  refine ⟨_, rfl, rfl, rfl, rfl, by simp, ?_, ?_, ?_⟩
  · intro hs
    show (if 0 < linreg_slope ys then "increasing"
      else if linreg_slope ys < 0 then "decreasing" else "stable") = "increasing"
    rw [if_pos hs]
  · intro hs
    show (if 0 < linreg_slope ys then "increasing"
      else if linreg_slope ys < 0 then "decreasing" else "stable") = "decreasing"
    rw [if_neg (by linarith), if_pos hs]
  · intro hs
    replace hs : linreg_slope ys = 0 := hs
    show (if 0 < linreg_slope ys then "increasing"
      else if linreg_slope ys < 0 then "decreasing" else "stable") = "stable"
    rw [hs]
    norm_num

/-- C6: with fewer than 3 daily values `analyze_trends` omits the pollutant's
trend block; with at least 3 it emits, for each pollutant series, a block
whose slope/r²/p-value come from the regression, whose `is_significant`
equals `p_value < 0.05`, and whose direction is decided strictly by the
sign of the slope (positive → increasing, negative → decreasing, exactly
zero → stable).  The p-value itself is whatever scipy computes, modelled
by the parameter `pv`. -/
theorem analyze_trends_gate_and_directions (pv : List ℚ → ℚ) (data : List DailyRow) :
    (data.length < 3 → (analyze_trends pv data).no2_trend = none ∧
      (analyze_trends pv data).pm25_trend = none) ∧
    (3 ≤ data.length →
      ∃ tn tp, (analyze_trends pv data).no2_trend = some tn ∧
        (analyze_trends pv data).pm25_trend = some tp ∧
        trend_block_spec pv (data.map (·.no2_value)) tn ∧
        trend_block_spec pv (data.map (·.pm25_value)) tp) := by
  constructor
  · intro hlt
    unfold analyze_trends trend_of
    rw [if_neg (by rw [List.length_map]; omega), if_neg (by rw [List.length_map]; omega)]
    exact ⟨rfl, rfl⟩
  · intro hge
    obtain ⟨tn, htn, hsn⟩ := trend_of_spec pv (data.map (·.no2_value))
      (by rw [List.length_map]; omega)
    obtain ⟨tp, htp, hsp⟩ := trend_of_spec pv (data.map (·.pm25_value))
      (by rw [List.length_map]; omega)
    exact ⟨tn, tp, htn, htp, hsn, hsp⟩

/-- A 3-day concrete daily series for the C6 witness. -/
def daily3 : List DailyRow :=
  [{ date := 0, no2_value := 10, pm25_value := 20, pollution_index := 0, aqi := 0,
     health_risk := 0, latitude_sentinel := 21, longitude_sentinel := 79 },
   { date := 1, no2_value := 20, pm25_value := 20, pollution_index := 0, aqi := 0,
     health_risk := 0, latitude_sentinel := 21, longitude_sentinel := 79 },
   { date := 2, no2_value := 30, pm25_value := 20, pollution_index := 0, aqi := 0,
     health_risk := 0, latitude_sentinel := 21, longitude_sentinel := 79 }]

/-- Witness for `analyze_trends_gate_and_directions` on `daily3`. -/
theorem analyze_trends_gate_and_directions_witness :
    ∃ tn tp, (analyze_trends (fun _ => 0) daily3).no2_trend = some tn ∧
      (analyze_trends (fun _ => 0) daily3).pm25_trend = some tp ∧
      trend_block_spec (fun _ => 0) (daily3.map (·.no2_value)) tn ∧
      trend_block_spec (fun _ => 0) (daily3.map (·.pm25_value)) tp :=
  (analyze_trends_gate_and_directions (fun _ => 0) daily3).2 (by decide)

/-! ## C7: forecaster -/

structure ForecastEntry where
  date : ℕ
  no2_forecast : ℚ
  pm25_forecast : ℚ
  pollution_index : ℚ
  is_forecast : Bool
  method : Option String
deriving DecidableEq

/-- The Prophet-path result formatting (lines 203-218): one entry per
predicted day `(date, yhat_no2, yhat_pm25)`.  The forecast concentrations
are clamped with `max(0, ·)`, but `pollution_index` is computed from the
raw `yhat` values before clamping (lines 206-210). -/
def prophet_format (preds : List (ℕ × ℚ × ℚ)) : List ForecastEntry :=
  preds.map fun p =>
    { date := p.1
      no2_forecast := max 0 p.2.1
      pm25_forecast := max 0 p.2.2
      pollution_index := 0.5 * p.2.1 / 40 + 0.5 * p.2.2 / 25
      is_forecast := true
      method := none }

/-- Embeds `generate_simple_forecasts` (lines 225-275): linear extrapolation of each
pollutant against the day index; clamps first, then computes the index
from the clamped values. -/
def generate_simple_forecasts (pollution_data : List DailyRecord) (forecast_days : ℕ) :
    List ForecastEntry :=
  if pollution_data.length < 3 then []
  else
    let no2s := pollution_data.map (·.no2_level)
    let pm25s := pollution_data.map (·.pm25_level)
    let n := pollution_data.length
    let last_date := (pollution_data.map (·.date)).getLastD 0
    (List.range forecast_days).map fun j =>
      let i : ℕ := j + 1
      let x_pred : ℚ := (n : ℚ) + (i : ℚ) - 1
      let no2f := max 0 (linreg_slope no2s * x_pred + linreg_intercept no2s)
      let pm25f := max 0 (linreg_slope pm25s * x_pred + linreg_intercept pm25s)
      { date := last_date + i
        no2_forecast := no2f
        pm25_forecast := pm25f
        pollution_index := 0.5 * no2f / 40 + 0.5 * pm25f / 25
        is_forecast := true
        method := some "simple_linear" }

/-- Embeds `generate_forecasts` (lines 171-223): the Prophet path runs only when the
library is available and at least 5 historical days exist; otherwise the
linear fallback runs.  Prophet's predictions are the parameter `preds`. -/
def generate_forecasts (prophet_available : Bool) (preds : List (ℕ × ℚ × ℚ))
    (pollution_data : List DailyRecord) (forecast_days : ℕ) : List ForecastEntry :=
  if prophet_available = false ∨ pollution_data.length < 5 then
    generate_simple_forecasts pollution_data forecast_days
  else prophet_format preds

/-- A dummy analyzer record used to build concrete forecast inputs. -/
def dummy_record (d : ℕ) (no2 pm25 : ℚ) : DailyRecord :=
  { date := d, no2_level := no2, pm25_level := pm25, pollution_index := 0, aqi := 0,
    health_risk := 0, is_anomaly := false, latitude := 21, longitude := 79,
    location := "Nagpur", summary := none }

/-- Five historical days, enough to run the Prophet path. -/
def hist5 : List DailyRecord :=
  [dummy_record 0 30 70, dummy_record 1 30 70, dummy_record 2 30 70,
   dummy_record 3 30 70, dummy_record 4 30 70]

/-- C7 counterexample: on the advanced (Prophet) path, when the model
predicts a negative NO2 concentration (-40) the emitted entry has the
clamped `no2_forecast = 0` but its `pollution_index` was computed from the
raw -40, so it violates
`pollution_index = 0.5*no2_forecast/40 + 0.5*pm25_forecast/25`. -/
theorem generate_forecasts_unclamped_index_counterexample :
    (generate_forecasts true [(10, -40, 25)] hist5 7).map (·.no2_forecast) = [0] ∧
    (generate_forecasts true [(10, -40, 25)] hist5 7).map (·.pm25_forecast) = [25] ∧
    (generate_forecasts true [(10, -40, 25)] hist5 7).map (·.pollution_index) = [0] ∧
    (0 : ℚ) ≠ 0.5 * 0 / 40 + 0.5 * 25 / 25 := by
  refine ⟨?_, ?_, ?_, by norm_num⟩ <;>
  · show [_] = [_]
    norm_num

theorem simple_forecasts_spec (pd : List DailyRecord) (days : ℕ) (e : ForecastEntry)
    (h : e ∈ generate_simple_forecasts pd days) :
    0 ≤ e.no2_forecast ∧ 0 ≤ e.pm25_forecast ∧ e.is_forecast = true ∧
    e.pollution_index = 0.5 * e.no2_forecast / 40 + 0.5 * e.pm25_forecast / 25 := by
  unfold generate_simple_forecasts at h
  split_ifs at h with hlen
  · simp at h
  · rw [List.mem_map] at h
    obtain ⟨j, _, he⟩ := h
    subst he
    exact ⟨le_max_left _ _, le_max_left _ _, rfl, rfl⟩

theorem prophet_format_spec (preds : List (ℕ × ℚ × ℚ)) (e : ForecastEntry)
    (h : e ∈ prophet_format preds) :
    0 ≤ e.no2_forecast ∧ 0 ≤ e.pm25_forecast ∧ e.is_forecast = true ∧
    ∃ p ∈ preds, e.no2_forecast = max 0 p.2.1 ∧ e.pm25_forecast = max 0 p.2.2 ∧
      e.pollution_index = 0.5 * p.2.1 / 40 + 0.5 * p.2.2 / 25 := by
  unfold prophet_format at h
  rw [List.mem_map] at h
  obtain ⟨p, hp, he⟩ := h
  subst he
  exact ⟨le_max_left _ _, le_max_left _ _, rfl, p, hp, rfl, rfl, rfl⟩

/-- C7 amended: on both paths every forecast entry has non-negative clamped
concentrations and `is_forecast = true`, and with fewer than 3 historical
days the forecaster returns the empty list; the fallback path computes
`pollution_index` from the clamped concentrations, while the advanced path
computes it from the raw model predictions (so the claimed equation holds
there only when both raw predictions are non-negative). -/
theorem generate_forecasts_amended (avail : Bool) (preds : List (ℕ × ℚ × ℚ))
    (pd : List DailyRecord) (days : ℕ) :
    (∀ e ∈ generate_forecasts avail preds pd days,
      0 ≤ e.no2_forecast ∧ 0 ≤ e.pm25_forecast ∧ e.is_forecast = true) ∧
    (∀ e ∈ generate_simple_forecasts pd days,
      e.pollution_index = 0.5 * e.no2_forecast / 40 + 0.5 * e.pm25_forecast / 25) ∧
    (∀ e ∈ prophet_format preds,
      ∃ p ∈ preds, e.no2_forecast = max 0 p.2.1 ∧ e.pm25_forecast = max 0 p.2.2 ∧
        e.pollution_index = 0.5 * p.2.1 / 40 + 0.5 * p.2.2 / 25) ∧
    (pd.length < 3 → generate_forecasts avail preds pd days = []) := by
  refine ⟨?_, ?_, ?_, ?_⟩
  · intro e he
    unfold generate_forecasts at he
    split_ifs at he with hgate
    · obtain ⟨h1, h2, h3, _⟩ := simple_forecasts_spec pd days e he
      exact ⟨h1, h2, h3⟩
    · obtain ⟨h1, h2, h3, _⟩ := prophet_format_spec preds e he
      exact ⟨h1, h2, h3⟩
  · intro e he
    exact (simple_forecasts_spec pd days e he).2.2.2
  · intro e he
    exact (prophet_format_spec preds e he).2.2.2
  · intro hlt
    unfold generate_forecasts
    rw [if_pos (Or.inr (by omega))]
    unfold generate_simple_forecasts
    rw [if_pos hlt]

/-- Witness for `generate_forecasts_amended`: with fewer than 3 historical
days the forecaster emits nothing. -/
theorem generate_forecasts_amended_witness :
    generate_forecasts false [] [dummy_record 0 30 70] 7 = [] :=
  (generate_forecasts_amended false [] [dummy_record 0 30 70] 7).2.2.2 (by decide)

/-! ## Risk zone classifier (`predict_risk_zones`, lines 473-622)

External effects are parameters: `lab` is sklearn's k-means labelling of
the input points (3 clusters), `u` is the stream of values produced by the
`random` module (`random.random()` returns `u k`; `random.uniform(a, b)`
returns `a + (b-a)*u k` for the k-th call), `sinq`/`cosq`/`piq` model
`np.sin`/`np.cos`/`np.pi` as the float functions/value the library
returns. -/

structure RiskZone where
  latitude : ℚ
  longitude : ℚ
  pollution_index : ℚ
  risk_level : String
  location : String
  estimated_affected_population : ℤ
  aqi : Option ℚ
  health_risk : Option ℚ
deriving DecidableEq

/-- Population lookup table (lines 829-836) with default 1000000. -/
def population_of (location : String) : ℚ :=
  if location = "Nagpur" then 2400000
  else if location = "Mumbai" then 12400000
  else if location = "Delhi" then 19000000
  else if location = "London" then 8900000
  else if location = "Shanghai" then 26000000
  else 1000000

/-- Risk percentage table (lines 838-847) with default 0.01. -/
def risk_percentage (risk_level : String) : ℚ :=
  if risk_level = "high" then 0.15
  else if risk_level = "medium" then 0.30
  else if risk_level = "low" then 0.40
  else if risk_level = "unknown" then 0.05
  else 0.01

/-- Embeds `estimate_affected_population` (lines 824-856).  Python's `int()`
truncates toward zero; the operand is non-negative here, so it is the
floor. -/
def estimate_affected_population (location risk_level : String) (variant : ℕ) : ℤ :=
  let base := population_of location * risk_percentage risk_level
  let variation_factor := max 0.5 (min 1.5 (0.7 + (variant : ℚ) * 0.1))
  Int.floor (base * variation_factor / 3)

/-- The k-th call of `random.uniform(a, b)` under the stream `u`. -/
def uniformAt (u : ℕ → ℚ) (k : ℕ) (a b : ℚ) : ℚ := a + (b - a) * u k

/-- The distinct k-means cluster labels in first-occurrence order — the
iteration order of the Python dict built at lines 494-498. -/
def cluster_ids (lab : ℕ → Fin 3) (n : ℕ) : List (Fin 3) :=
  ((List.range n).map lab).eraseDups

/-- Mean pollution index of one cluster (lines 500-501). -/
def cluster_avg (lab : ℕ → Fin 3) (pd : List DailyRecord) (cid : Fin 3) : ℚ :=
  mean ((pd.enum.filter fun e => lab e.1 == cid).map fun e => e.2.pollution_index)

/-- Stable descending insertion used to model Python's
`sorted(..., key=lambda x: x[1], reverse=True)` (line 504). -/
def insert_desc (x : Fin 3 × ℚ) : List (Fin 3 × ℚ) → List (Fin 3 × ℚ)
  | [] => [x]
  | y :: ys => if x.2 ≥ y.2 then x :: y :: ys else y :: insert_desc x ys

def sort_desc (l : List (Fin 3 × ℚ)) : List (Fin 3 × ℚ) := l.foldr insert_desc []

/-- Embeds `risk_mapping` (line 505): highest-mean cluster → high, middle → medium,
lowest → low. -/
def risk_mapping (s0 s1 : Fin 3) (cid : Fin 3) : String :=
  if cid = s0 then "high" else if cid = s1 then "medium" else "low"

/-- The spatial-synthesis zones of the degenerate all-same-coordinates
branch (lines 513-565): per tier, 3/4/5 points on circles of tier radius;
each zone consumes three random values (angle jitter, distance jitter,
pollution variation of ±15% of the cluster mean). -/
def same_coords_zones (u : ℕ → ℚ) (sinq cosq : ℚ → ℚ) (piq : ℚ)
    (center_lat center_lng : ℚ) (location : String) (pd : List DailyRecord)
    (s0 s1 : Fin 3) (sorted_clusters : List (Fin 3 × ℚ)) : List RiskZone :=
  sorted_clusters.enum.flatMap fun e =>
    let i := e.1
    let risk_level := risk_mapping s0 s1 e.2.1
    let distance : ℚ :=
      if risk_level = "high" then 0.02 else if risk_level = "medium" then 0.04 else 0.06
    let num_points : ℕ :=
      if risk_level = "high" then 3 else if risk_level = "medium" then 4 else 5
    let kbase : ℕ := 3 * (if i = 0 then 0 else if i = 1 then 3 else 7)
    (List.range num_points).map fun j =>
      let k := kbase + 3 * j
      let angle := 2 * piq / (num_points : ℚ) * (j : ℚ)
      let angle_jitter := uniformAt u k (-0.2) 0.2
      let distance_jitter := uniformAt u (k + 1) (-0.005) 0.005
      let base := e.2.2
      { latitude := center_lat + (distance + distance_jitter) * sinq (angle + angle_jitter)
        longitude := center_lng + (distance + distance_jitter) * cosq (angle + angle_jitter)
        pollution_index := base + base * uniformAt u (k + 2) (-0.15) 0.15
        risk_level := risk_level
        location := location
        estimated_affected_population := estimate_affected_population location risk_level j
        aqi := (pd.get? i).map (·.aqi)
        health_risk := (pd.get? i).map (·.health_risk) }

/-- The non-degenerate clustered zones (lines 566-588): one zone per input
point, risk level from its cluster's tier. -/
def clustered_point_zones (lab : ℕ → Fin 3) (location : String) (pd : List DailyRecord)
    (s0 s1 : Fin 3) : List RiskZone :=
  pd.enum.map fun e =>
    { latitude := e.2.latitude
      longitude := e.2.longitude
      pollution_index := e.2.pollution_index
      risk_level := risk_mapping s0 s1 (lab e.1)
      location := location
      estimated_affected_population :=
        estimate_affected_population location (risk_mapping s0 s1 (lab e.1)) 0
      aqi := some e.2.aqi
      health_risk := some e.2.health_risk }

/-- One tier of the `< 3 points` synthetic fallback (lines 592-622); each
zone consumes three random values (angle, distance, pollution jitter). -/
def fallback_tier_zones (u : ℕ → ℚ) (sinq cosq : ℚ → ℚ) (piq : ℚ)
    (center_lat center_lng : ℚ) (location : String) (risk_level : String)
    (distance : ℚ) (num_points : ℕ) (kbase : ℕ) : List RiskZone :=
  (List.range num_points).map fun i =>
    let k := kbase + 3 * i
    let angle := 2 * piq / (num_points : ℚ) * (i : ℚ) + 0.2 * u k
    let distance_adjusted := distance + 0.01 * u (k + 1)
    let base : ℚ :=
      if risk_level = "high" then 2.5 else if risk_level = "medium" then 1.5 else 0.8
    { latitude := center_lat + distance_adjusted * sinq angle
      longitude := center_lng + distance_adjusted * cosq angle
      pollution_index := base + uniformAt u (k + 2) (-0.2) 0.2
      risk_level := risk_level
      location := location
      estimated_affected_population := estimate_affected_population location risk_level 0
      aqi := none
      health_risk := none }

def fallback_zones (u : ℕ → ℚ) (sinq cosq : ℚ → ℚ) (piq : ℚ)
    (center_lat center_lng : ℚ) (location : String) : List RiskZone :=
  fallback_tier_zones u sinq cosq piq center_lat center_lng location "high" 0.02 2 0 ++
  fallback_tier_zones u sinq cosq piq center_lat center_lng location "medium" 0.04 3 6 ++
  fallback_tier_zones u sinq cosq piq center_lat center_lng location "low" 0.06 4 15

/-- The `≥ 3 points` clustering branch, as a function of the sorted cluster
list: with exactly 3 distinct clusters sorted by mean pollution descending
it dispatches on the all-same-coordinates test; any other shape of
`sorted_clusters` means k-means produced fewer than 3 distinct labels and
`sorted_clusters[1]` raises `IndexError` (modelled as `none`). -/
def clustered_branch (lab : ℕ → Fin 3) (u : ℕ → ℚ) (sinq cosq : ℚ → ℚ) (piq : ℚ)
    (pd : List DailyRecord) (center_lat center_lng : ℚ) (location : String) :
    List (Fin 3 × ℚ) → Option (List RiskZone)
  | [s0, s1, s2] =>
    if ((pd.map fun d => (d.latitude, d.longitude)).eraseDups).length == 1 then
      some (same_coords_zones u sinq cosq piq center_lat center_lng location pd
        s0.1 s1.1 [s0, s1, s2])
    else
      some (clustered_point_zones lab location pd s0.1 s1.1)
  | _ => none

/-- Embeds `predict_risk_zones` (lines 473-622).  `pollution_data[0]` raises
`IndexError` on the empty input (line 483), modelled as `none`. -/
def predict_risk_zones (lab : ℕ → Fin 3) (u : ℕ → ℚ) (sinq cosq : ℚ → ℚ) (piq : ℚ)
    (pollution_data : List DailyRecord) : Option (List RiskZone) :=
  match pollution_data with
  | [] => none
  | p0 :: rest =>
    let pd := p0 :: rest
    let location := p0.location
    let center_lat := mean (pd.map (·.latitude))
    let center_lng := mean (pd.map (·.longitude))
    if 3 ≤ pd.length then
      clustered_branch lab u sinq cosq piq pd center_lat center_lng location
        (sort_desc ((cluster_ids lab pd.length).map fun cid =>
          (cid, cluster_avg lab pd cid)))
    else
      some (fallback_zones u sinq cosq piq center_lat center_lng location)

/-! ## C8: behaviour on fewer than 3 daily records -/

/-- C8 counterexample: on the empty input `predict_risk_zones` raises
(`pollution_data[0]`, line 483) instead of emitting synthetic zones —
modelled as `none`. -/
theorem predict_risk_zones_empty_input_counterexample :
    predict_risk_zones (fun _ => 0) (fun _ => 0) (fun _ => 0) (fun _ => 0) 0 [] = none :=
  rfl

theorem fallback_tier_zones_risk_level (u : ℕ → ℚ) (sinq cosq : ℚ → ℚ) (piq : ℚ)
    (clat clng : ℚ) (loc lvl : String) (dist : ℚ) (np kb : ℕ) (z : RiskZone)
    (h : z ∈ fallback_tier_zones u sinq cosq piq clat clng loc lvl dist np kb) :
    z.risk_level = lvl := by
  unfold fallback_tier_zones at h
  rw [List.mem_map] at h
  obtain ⟨i, _, hz⟩ := h
  subst hz
  rfl

theorem length_filter_map_const {α β : Type} (l : List α) (f : α → β) (p : β → Bool)
    (b : Bool) (hp : ∀ x ∈ l, p (f x) = b) :
    ((l.map f).filter p).length = if b = true then l.length else 0 := by
  induction l with
  | nil => cases b <;> simp
  | cons x xs ih =>
    rw [List.map_cons, List.filter_cons, hp x (List.mem_cons_self x xs)]
    have ih' := ih fun y hy => hp y (List.mem_cons_of_mem x hy)
    cases b
    · simpa using ih'
    · simp [ih']

theorem fallback_tier_zones_filter_length (u : ℕ → ℚ) (sinq cosq : ℚ → ℚ) (piq : ℚ)
    (clat clng : ℚ) (loc lvl lvl' : String) (dist : ℚ) (np kb : ℕ) :
    ((fallback_tier_zones u sinq cosq piq clat clng loc lvl' dist np kb).filter
      fun z => z.risk_level == lvl).length = if lvl' = lvl then np else 0 := by
  unfold fallback_tier_zones
  by_cases hl : lvl' = lvl
  · subst hl
    rw [length_filter_map_const _ _ _ true fun x _ => by
        show (lvl' == lvl') = true
        simp]
    simp
  · rw [length_filter_map_const _ _ _ false fun x _ => by
        show (lvl' == lvl) = false
        simp [hl]]
    rw [if_neg hl]
    rfl

theorem fallback_tier_zones_pollution_bounds (u : ℕ → ℚ) (sinq cosq : ℚ → ℚ)
    (piq : ℚ) (clat clng : ℚ) (loc lvl : String) (dist : ℚ) (np kb : ℕ)
    (hu : ∀ k, 0 ≤ u k ∧ u k ≤ 1) (z : RiskZone)
    (h : z ∈ fallback_tier_zones u sinq cosq piq clat clng loc lvl dist np kb) :
    (if lvl = "high" then (2.5 : ℚ) else if lvl = "medium" then 1.5 else 0.8) - 0.2 ≤
      z.pollution_index ∧
    z.pollution_index ≤
      (if lvl = "high" then (2.5 : ℚ) else if lvl = "medium" then 1.5 else 0.8) + 0.2 := by
  unfold fallback_tier_zones at h
  rw [List.mem_map] at h
  obtain ⟨i, _, hz⟩ := h
  subst hz
  show _ ≤ (if lvl = "high" then (2.5 : ℚ) else if lvl = "medium" then 1.5 else 0.8) +
      uniformAt u (kb + 3 * i + 2) (-0.2) 0.2 ∧ _
  have hk := hu (kb + 3 * i + 2)
  unfold uniformAt
  constructor <;> nlinarith [hk.1, hk.2]

/-- C8 amended: for every non-empty input with fewer than 3 daily records,
`predict_risk_zones` succeeds and emits the synthetic zones directly —
2 points at tier high, 3 at medium and 4 at low, with pollution_index
within jitter range ±0.2 of the bases 2.5 / 1.5 / 0.8 respectively.  On
the empty input it raises `IndexError` instead (see the counterexample). -/
theorem predict_risk_zones_small_input (lab : ℕ → Fin 3) (u : ℕ → ℚ)
    (sinq cosq : ℚ → ℚ) (piq : ℚ) (pd : List DailyRecord)
    (hne : pd ≠ []) (hlt : pd.length < 3) (hu : ∀ k, 0 ≤ u k ∧ u k ≤ 1) :
    ∃ zs, predict_risk_zones lab u sinq cosq piq pd = some zs ∧
      (zs.filter fun z => z.risk_level == "high").length = 2 ∧
      (zs.filter fun z => z.risk_level == "medium").length = 3 ∧
      (zs.filter fun z => z.risk_level == "low").length = 4 ∧
      (∀ z ∈ zs, z.risk_level = "high" →
        2.3 ≤ z.pollution_index ∧ z.pollution_index ≤ 2.7) ∧
      (∀ z ∈ zs, z.risk_level = "medium" →
        1.3 ≤ z.pollution_index ∧ z.pollution_index ≤ 1.7) ∧
      (∀ z ∈ zs, z.risk_level = "low" →
        0.6 ≤ z.pollution_index ∧ z.pollution_index ≤ 1) := by
  cases pd with
  | nil => exact absurd rfl hne
  | cons p0 rest =>
    refine ⟨fallback_zones u sinq cosq piq (mean ((p0 :: rest).map (·.latitude)))
      (mean ((p0 :: rest).map (·.longitude))) p0.location, ?_, ?_, ?_, ?_, ?_, ?_, ?_⟩
    · show (if 3 ≤ (p0 :: rest).length then _ else _) = _
      rw [if_neg (by omega)]
    · unfold fallback_zones
      rw [List.filter_append, List.filter_append, List.length_append, List.length_append,
        fallback_tier_zones_filter_length, fallback_tier_zones_filter_length,
        fallback_tier_zones_filter_length]
      decide
    · unfold fallback_zones
      rw [List.filter_append, List.filter_append, List.length_append, List.length_append,
        fallback_tier_zones_filter_length, fallback_tier_zones_filter_length,
        fallback_tier_zones_filter_length]
      decide
    · unfold fallback_zones
      rw [List.filter_append, List.filter_append, List.length_append, List.length_append,
        fallback_tier_zones_filter_length, fallback_tier_zones_filter_length,
        fallback_tier_zones_filter_length]
      decide
    · intro z hz hlvl
      unfold fallback_zones at hz
      rw [List.mem_append, List.mem_append] at hz
      rcases hz with (hz | hz) | hz
      · have hb := fallback_tier_zones_pollution_bounds _ _ _ _ _ _ _ _ _ _ _ hu z hz
        rw [if_pos rfl] at hb
        constructor <;> linarith [hb.1, hb.2]
      · rw [fallback_tier_zones_risk_level _ _ _ _ _ _ _ _ _ _ _ z hz] at hlvl
        exact absurd hlvl (by decide)
      · rw [fallback_tier_zones_risk_level _ _ _ _ _ _ _ _ _ _ _ z hz] at hlvl
        exact absurd hlvl (by decide)
    · intro z hz hlvl
      unfold fallback_zones at hz
      rw [List.mem_append, List.mem_append] at hz
      rcases hz with (hz | hz) | hz
      · rw [fallback_tier_zones_risk_level _ _ _ _ _ _ _ _ _ _ _ z hz] at hlvl
        exact absurd hlvl (by decide)
      · have hb := fallback_tier_zones_pollution_bounds _ _ _ _ _ _ _ _ _ _ _ hu z hz
        rw [if_neg (by decide), if_pos rfl] at hb
        constructor <;> linarith [hb.1, hb.2]
      · rw [fallback_tier_zones_risk_level _ _ _ _ _ _ _ _ _ _ _ z hz] at hlvl
        exact absurd hlvl (by decide)
    · intro z hz hlvl
      unfold fallback_zones at hz
      rw [List.mem_append, List.mem_append] at hz
      rcases hz with (hz | hz) | hz
      · rw [fallback_tier_zones_risk_level _ _ _ _ _ _ _ _ _ _ _ z hz] at hlvl
        exact absurd hlvl (by decide)
      · rw [fallback_tier_zones_risk_level _ _ _ _ _ _ _ _ _ _ _ z hz] at hlvl
        exact absurd hlvl (by decide)
      · have hb := fallback_tier_zones_pollution_bounds _ _ _ _ _ _ _ _ _ _ _ hu z hz
        rw [if_neg (by decide), if_neg (by decide)] at hb
        constructor <;> linarith [hb.1, hb.2]

/-- Witness for `predict_risk_zones_small_input` at a concrete single-record
input with the random stream fixed at 1/2. -/
theorem predict_risk_zones_small_input_witness :
    ∃ zs, predict_risk_zones (fun _ => 0) (fun _ => 1 / 2) (fun _ => 0) (fun _ => 0) 0
        [dummy_record 0 30 70] = some zs ∧
      (zs.filter fun z => z.risk_level == "high").length = 2 ∧
      (zs.filter fun z => z.risk_level == "medium").length = 3 ∧
      (zs.filter fun z => z.risk_level == "low").length = 4 ∧
      (∀ z ∈ zs, z.risk_level = "high" →
        2.3 ≤ z.pollution_index ∧ z.pollution_index ≤ 2.7) ∧
      (∀ z ∈ zs, z.risk_level = "medium" →
        1.3 ≤ z.pollution_index ∧ z.pollution_index ≤ 1.7) ∧
      (∀ z ∈ zs, z.risk_level = "low" →
        0.6 ≤ z.pollution_index ∧ z.pollution_index ≤ 1) :=
  predict_risk_zones_small_input (fun _ => 0) (fun _ => 1 / 2) (fun _ => 0) (fun _ => 0) 0
    [dummy_record 0 30 70] (by decide) (by decide)
    (fun _ => ⟨by norm_num, by norm_num⟩)

/-! ## C10: every emitted zone's tier is high, medium or low -/

theorem risk_mapping_cases (s0 s1 cid : Fin 3) :
    risk_mapping s0 s1 cid = "high" ∨ risk_mapping s0 s1 cid = "medium" ∨
      risk_mapping s0 s1 cid = "low" := by
  unfold risk_mapping
  split_ifs <;> simp

/-- C10: on every path of `predict_risk_zones` — the clustered path over
distinct coordinates, the degenerate same-coordinate synthesis, and the
fewer-than-3-points fallback — every emitted zone carries risk_level
"high", "medium" or "low"; the "unknown" tier of the RiskZone model is
never produced. -/
theorem predict_risk_zones_levels_in_three_tiers (lab : ℕ → Fin 3) (u : ℕ → ℚ)
    (sinq cosq : ℚ → ℚ) (piq : ℚ) (pd : List DailyRecord) (z : RiskZone)
    (hz : z ∈ (predict_risk_zones lab u sinq cosq piq pd).getD []) :
    z.risk_level = "high" ∨ z.risk_level = "medium" ∨ z.risk_level = "low" := by
  cases pd with
  | nil => simp [predict_risk_zones] at hz
  | cons p0 rest =>
    have hpred : predict_risk_zones lab u sinq cosq piq (p0 :: rest) =
        if 3 ≤ (p0 :: rest).length then
          clustered_branch lab u sinq cosq piq (p0 :: rest)
            (mean ((p0 :: rest).map (·.latitude))) (mean ((p0 :: rest).map (·.longitude)))
            p0.location
            (sort_desc ((cluster_ids lab (p0 :: rest).length).map fun cid =>
              (cid, cluster_avg lab (p0 :: rest) cid)))
        else
          some (fallback_zones u sinq cosq piq (mean ((p0 :: rest).map (·.latitude)))
            (mean ((p0 :: rest).map (·.longitude))) p0.location) := rfl
    rw [hpred] at hz
    by_cases h3 : 3 ≤ (p0 :: rest).length
    · rw [if_pos h3] at hz
      rcases hsort : sort_desc ((cluster_ids lab (p0 :: rest).length).map fun cid =>
          (cid, cluster_avg lab (p0 :: rest) cid)) with _ | ⟨s0, tl0⟩ <;> rw [hsort] at hz
      · simp [clustered_branch] at hz
      · rcases tl0 with _ | ⟨s1, tl1⟩
        · simp [clustered_branch] at hz
        · rcases tl1 with _ | ⟨s2, tl2⟩
          · simp [clustered_branch] at hz
          · rcases tl2 with _ | ⟨s3, tl3⟩
            · have hbranch : clustered_branch lab u sinq cosq piq (p0 :: rest)
                  (mean ((p0 :: rest).map (·.latitude)))
                  (mean ((p0 :: rest).map (·.longitude))) p0.location [s0, s1, s2] =
                  if (((p0 :: rest).map fun d =>
                      (d.latitude, d.longitude)).eraseDups).length == 1 then
                    some (same_coords_zones u sinq cosq piq
                      (mean ((p0 :: rest).map (·.latitude)))
                      (mean ((p0 :: rest).map (·.longitude))) p0.location (p0 :: rest)
                      s0.1 s1.1 [s0, s1, s2])
                  else
                    some (clustered_point_zones lab p0.location (p0 :: rest) s0.1 s1.1) :=
                rfl
              rw [hbranch] at hz
              by_cases hsame : ((((p0 :: rest).map fun d =>
                  (d.latitude, d.longitude)).eraseDups).length == 1) = true
              · rw [if_pos hsame, Option.getD_some] at hz
                unfold same_coords_zones at hz
                rw [List.mem_flatMap] at hz
                obtain ⟨e, _, hze⟩ := hz
                rw [List.mem_map] at hze
                obtain ⟨j, _, hzj⟩ := hze
                subst hzj
                exact risk_mapping_cases s0.1 s1.1 e.2.1
              · rw [if_neg hsame, Option.getD_some] at hz
                unfold clustered_point_zones at hz
                rw [List.mem_map] at hz
                obtain ⟨e, _, hze⟩ := hz
                subst hze
                exact risk_mapping_cases s0.1 s1.1 (lab e.1)
            · simp [clustered_branch] at hz
    · rw [if_neg h3, Option.getD_some] at hz
      unfold fallback_zones at hz
      rw [List.mem_append, List.mem_append] at hz
      rcases hz with (hz | hz) | hz <;>
        rw [fallback_tier_zones_risk_level _ _ _ _ _ _ _ _ _ _ _ z hz]
      · exact Or.inl rfl
      · exact Or.inr (Or.inl rfl)
      · exact Or.inr (Or.inr rfl)

/-- Witness for `predict_risk_zones_levels_in_three_tiers`: the head zone of
the concrete single-record run is in one of the three tiers. -/
theorem predict_risk_zones_levels_in_three_tiers_witness :
    ∃ z ∈ (predict_risk_zones (fun _ => 0) (fun _ => 1 / 2) (fun _ => 0) (fun _ => 0) 0
        [dummy_record 0 30 70]).getD [],
      z.risk_level = "high" ∨ z.risk_level = "medium" ∨ z.risk_level = "low" := by
  have hne : (predict_risk_zones (fun _ => 0) (fun _ => 1 / 2) (fun _ => 0) (fun _ => 0) 0
      [dummy_record 0 30 70]).getD [] ≠ [] := by
    intro hcon
    exact absurd (congrArg List.length hcon) (by decide)
  exact ⟨_, List.head_mem hne,
    predict_risk_zones_levels_in_three_tiers (fun _ => 0) (fun _ => 1 / 2) (fun _ => 0)
      (fun _ => 0) 0 [dummy_record 0 30 70] _ (List.head_mem hne)⟩

/-! ## Weather correlator (`weather_service.py`, lines 161-251)

Pearson correlation of two series is `r = Sxy / sqrt(Sxx * Syy)` with the
centered sums `Sxy = Σ(x-x̄)(y-ȳ)`, `Sxx`, `Syy`.  `r` itself is
irrational in general, but every use the code makes of the stored float —
`abs(corr) >= 0.3`, `corr > 0` and the zero-variance guard — depends only
on the sign of `Sxy` and on the exact rational quantities `Sxy^2` and
`Sxx * Syy`, so a correlation entry is embedded as the triple
(`nonzero`, `num = Sxy`, `den = Sxx * Syy`): the stored value is
`num / sqrt den` when `nonzero`, else the literal `0`. -/

structure WeatherRec where
  date : ℕ
  temperature : ℚ
  humidity : ℚ
  wind_speed : ℚ
  precipitation : ℚ
  pressure : ℚ
  location : String
  latitude : ℚ
  longitude : ℚ
deriving DecidableEq

/-- Embeds the join `pd.merge(weather_data, pollution_data, on='date', how='inner')`
(lines 170-176). -/
def merge_by_date (w : List WeatherRec) (p : List DailyRecord) :
    List (WeatherRec × DailyRecord) :=
  w.flatMap fun a => (p.filter fun b => b.date == a.date).map fun b => (a, b)

/-- Computes `Σ (x - x̄)(y - ȳ)` over the zipped series. -/
def centered_dot (xs ys : List ℚ) : ℚ :=
  ((xs.zip ys).map fun q => (q.1 - mean xs) * (q.2 - mean ys)).sum

def centered_ss (xs : List ℚ) : ℚ := centered_dot xs xs

/-- Decides `series.std() > 0` with pandas ddof = 1: positive centered sum of squares
and at least 2 values (on a single value pandas yields NaN and the
comparison is false). -/
def has_var (xs : List ℚ) : Bool :=
  decide (2 ≤ xs.length ∧ 0 < centered_ss xs)

def weather_factors : List String :=
  ["temperature", "humidity", "wind_speed", "precipitation", "pressure"]

def pollution_factors : List String := ["no2_level", "pm25_level"]

def wfactor_series (w : String) (rows : List (WeatherRec × DailyRecord)) : List ℚ :=
  rows.map fun r =>
    if w = "temperature" then r.1.temperature
    else if w = "humidity" then r.1.humidity
    else if w = "wind_speed" then r.1.wind_speed
    else if w = "precipitation" then r.1.precipitation
    else r.1.pressure

def pfactor_series (p : String) (rows : List (WeatherRec × DailyRecord)) : List ℚ :=
  rows.map fun r => if p = "no2_level" then r.2.no2_level else r.2.pm25_level

/-- One entry of the `correlations` dict (lines 186-198): key
`f"{w_factor}_{p_factor}"`; `nonzero` is the both-stds-positive guard. -/
structure CorrEntry where
  key : String
  nonzero : Bool
  num : ℚ
  den : ℚ
deriving DecidableEq

def correlations_of (rows : List (WeatherRec × DailyRecord)) : List CorrEntry :=
  weather_factors.flatMap fun w =>
    pollution_factors.map fun p =>
      { key := w ++ "_" ++ p
        nonzero := has_var (wfactor_series w rows) && has_var (pfactor_series p rows)
        num := centered_dot (wfactor_series w rows) (pfactor_series p rows)
        den := centered_ss (wfactor_series w rows) * centered_ss (pfactor_series p rows) }

/-- Characters before the first underscore, and the characters after it. -/
def split_chars : List Char → List Char × List Char
  | [] => ([], [])
  | c :: cs =>
    if c = '_' then ([], cs)
    else
      let r := split_chars cs
      (c :: r.1, r.2)

/-- Python's `key.split('_', 1)` (line 205): split at the first underscore
only. -/
def split_first_underscore (s : String) : String × String :=
  let r := split_chars s.toList
  (String.mk r.1, String.mk r.2)

/-- Line 223: the pollutant display name (the NO2 literal reproduces the
source file's bytes). -/
def pollutant_name (pollution_factor : String) : String :=
  if pollution_factor = "no2_level" then "NOâ‚‚" else "PM2.5"

/-- Embeds `get_weather_correlation_explanation` (lines 221-251): two fixed
templates per known weather factor selected by the sign of the
correlation, generic fallback sentence otherwise. -/
def get_weather_correlation_explanation (weather_factor pollution_factor : String)
    (correlation_positive : Bool) : String :=
  let pollutant := pollutant_name pollution_factor
  if weather_factor = "temperature" then
    if correlation_positive then
      "Higher temperatures are associated with increased " ++ pollutant ++
        " levels, possibly due to increased photochemical reactions forming secondary pollutants or higher energy consumption."
    else
      "Lower temperatures are associated with increased " ++ pollutant ++
        " levels, potentially due to increased heating/burning activities or temperature inversions trapping pollutants near the ground."
  else if weather_factor = "humidity" then
    if correlation_positive then
      "Higher humidity is associated with increased " ++ pollutant ++
        " levels. This may be due to humid conditions slowing the dispersion of pollutants or facilitating secondary pollutant formation."
    else
      "Lower humidity is associated with increased " ++ pollutant ++
        " levels. Dry air may promote dust suspension and particulate matter accumulation in the atmosphere."
  else if weather_factor = "wind_speed" then
    if correlation_positive then
      "Higher wind speeds correlate with increased " ++ pollutant ++
        " levels, which is unusual and might suggest transport of pollutants from upwind sources."
    else
      "Lower wind speeds correlate with increased " ++ pollutant ++
        " levels, likely due to reduced dispersion and ventilation of pollutants in stagnant air conditions."
  else if weather_factor = "precipitation" then
    if correlation_positive then
      "Higher precipitation is associated with increased " ++ pollutant ++
        " levels, which is unusual and might indicate measurement interference or other complex factors."
    else
      "Lower precipitation is associated with increased " ++ pollutant ++
        " levels, as rainfall typically washes out pollutants from the air (\x27wet deposition\x27)."
  else if weather_factor = "pressure" then
    if correlation_positive then
      "Higher atmospheric pressure is associated with increased " ++ pollutant ++
        " levels, potentially indicating stable air conditions that trap pollutants."
    else
      "Lower atmospheric pressure is associated with increased " ++ pollutant ++
        " levels, which might be related to changing weather systems bringing in polluted air masses."
  else
    "There is a " ++ (if correlation_positive then "positive" else "negative") ++
      " correlation between " ++ weather_factor ++ " and " ++ pollutant ++ " levels."

/-- One entry of the `explanations` list (lines 209-214); `value_positive`
is the sign of the stored coefficient. -/
structure ExplEntry where
  correlation : String
  value_positive : Bool
  explanation : String
deriving DecidableEq

/-- Lines 201-214: emit an explanation for every pair whose stored
coefficient satisfies `abs(corr) >= 0.3`, i.e. the guard passed and
`Sxy^2 >= 0.09 * Sxx * Syy`; when the guard failed the stored value is 0
which never reaches 0.3. -/
def explanations_of (rows : List (WeatherRec × DailyRecord)) : List ExplEntry :=
  (correlations_of rows).filterMap fun c =>
    if c.nonzero = true ∧ (9 : ℚ) / 100 * c.den ≤ c.num ^ 2 then
      some
        { correlation := (split_first_underscore c.key).1 ++ "_" ++
            (split_first_underscore c.key).2
          value_positive := decide ((0 : ℚ) < c.num)
          explanation := get_weather_correlation_explanation
            (split_first_underscore c.key).1 (split_first_underscore c.key).2
            (decide ((0 : ℚ) < c.num)) }
    else none

structure CorrResult where
  correlations : List CorrEntry
  explanations : List ExplEntry
deriving DecidableEq

/-- Embeds `correlate_weather_with_pollution` (lines 161-219): `None` on empty
inputs or an empty join, else the correlations and explanations. -/
def correlate_weather_with_pollution (w : List WeatherRec) (p : List DailyRecord) :
    Option CorrResult :=
  if w.length = 0 ∨ p.length = 0 then none
  else
    let rows := merge_by_date w p
    if rows.length = 0 then none
    else some { correlations := correlations_of rows, explanations := explanations_of rows }

/-! ## C9: the wind_speed explanation bug -/

/-- Weather input for the failing case: only `wind_speed` varies. -/
def weather3 : List WeatherRec :=
  [{ date := 0, temperature := 20, humidity := 50, wind_speed := 1, precipitation := 0,
     pressure := 1000, location := "Nagpur", latitude := 21, longitude := 79 },
   { date := 1, temperature := 20, humidity := 50, wind_speed := 2, precipitation := 0,
     pressure := 1000, location := "Nagpur", latitude := 21, longitude := 79 },
   { date := 2, temperature := 20, humidity := 50, wind_speed := 3, precipitation := 0,
     pressure := 1000, location := "Nagpur", latitude := 21, longitude := 79 }]

/-- Pollution input for the failing case: `no2_level` proportional to
`wind_speed` (perfect correlation 1), `pm25_level` constant. -/
def pollution3 : List DailyRecord :=
  [dummy_record 0 1 10, dummy_record 1 2 10, dummy_record 2 3 10]

/-- C9 failing input: the wind_speed × no2_level pair has Pearson
coefficient 1 ≥ 0.3, so an explanation entry is emitted, but because
`key.split('_', 1)` cuts `"wind_speed_no2_level"` after `"wind"`, the
lookup misses the wind_speed template table and the pollutant check sees
`"speed_no2_level"`: the emitted text is the generic fallback naming
"wind" and the wrong pollutant ("PM2.5" for an NO2 pair), not one of the
two fixed wind_speed templates. -/
theorem correlate_wind_speed_template_bug :
    ∃ res, correlate_weather_with_pollution weather3 pollution3 = some res ∧
      res.explanations.map (·.correlation) = ["wind_speed_no2_level"] ∧
      res.explanations.map (·.explanation) =
        ["There is a positive correlation between wind and PM2.5 levels."] ∧
      "There is a positive correlation between wind and PM2.5 levels." ≠
        get_weather_correlation_explanation "wind_speed" "no2_level" true := by
  have hT : wfactor_series "temperature" (merge_by_date weather3 pollution3) =
      [20, 20, 20] := by decide
  have hH : wfactor_series "humidity" (merge_by_date weather3 pollution3) =
      [50, 50, 50] := by decide
  have hW : wfactor_series "wind_speed" (merge_by_date weather3 pollution3) =
      [1, 2, 3] := by decide
  have hP : wfactor_series "precipitation" (merge_by_date weather3 pollution3) =
      [0, 0, 0] := by decide
  have hPr : wfactor_series "pressure" (merge_by_date weather3 pollution3) =
      [1000, 1000, 1000] := by decide
  have hN : pfactor_series "no2_level" (merge_by_date weather3 pollution3) =
      [1, 2, 3] := by decide
  have hM : pfactor_series "pm25_level" (merge_by_date weather3 pollution3) =
      [10, 10, 10] := by decide
  have hvT : has_var [(20 : ℚ), 20, 20] = false := by
    norm_num [has_var, centered_ss, centered_dot, mean]
  have hvH : has_var [(50 : ℚ), 50, 50] = false := by
    norm_num [has_var, centered_ss, centered_dot, mean]
  have hvP : has_var [(0 : ℚ), 0, 0] = false := by
    norm_num [has_var, centered_ss, centered_dot, mean]
  have hvPr : has_var [(1000 : ℚ), 1000, 1000] = false := by
    norm_num [has_var, centered_ss, centered_dot, mean]
  have hvM : has_var [(10 : ℚ), 10, 10] = false := by
    norm_num [has_var, centered_ss, centered_dot, mean]
  have hvW : has_var [(1 : ℚ), 2, 3] = true := by
    norm_num [has_var, centered_ss, centered_dot, mean]
  have hssW : centered_ss [(1 : ℚ), 2, 3] = 2 := by
    norm_num [centered_ss, centered_dot, mean]
  have hdotWN : centered_dot [(1 : ℚ), 2, 3] [(1 : ℚ), 2, 3] = 2 := by
    norm_num [centered_dot, mean]
  have hdotWM : centered_dot [(1 : ℚ), 2, 3] [(10 : ℚ), 10, 10] = 0 := by
    norm_num [centered_dot, mean]
  have hkey : ("wind_speed" ++ "_" ++ "no2_level" : String) = "wind_speed_no2_level" := by
    decide
  have hsplit : split_first_underscore "wind_speed_no2_level" = ("wind", "speed_no2_level") := by
    decide
  have hjoin : ("wind" ++ "_" ++ "speed_no2_level" : String) = "wind_speed_no2_level" := by
    decide
  have hexpl : get_weather_correlation_explanation "wind" "speed_no2_level" true =
      "There is a positive correlation between wind and PM2.5 levels." := by decide
  refine ⟨_, rfl, ?_, ?_, by decide⟩ <;>
  · show List.map _ (explanations_of (merge_by_date weather3 pollution3)) = _
    rw [explanations_of, correlations_of]
    norm_num [weather_factors, pollution_factors, hT, hH, hW, hP, hPr, hN, hM,
      hvT, hvH, hvP, hvPr, hvM, hvW, hssW, hdotWN, hdotWM, hkey, hsplit, hjoin, hexpl,
      List.filterMap_cons]

end AnalysisService
